import Mathlib

/-!
Verification of the karyotype classification and notation engine of
`src/app.py` (karyotype-analyzer-2).  The Python values are shallowly
embedded: the result dictionary becomes the structure `KResult`, an
abnormality dictionary becomes `Abnormality`, and the random draws made
by `KaryotypeAnalyzer.mock_analysis` are passed explicitly as a
`MockRand` record, so that the analysis stand-in becomes a pure function
of its random choices.
-/

/-- A value stored under the `chromosome` key of an abnormality
dictionary: the Python code stores an `int` (e.g. `21`) for trisomies
and the string `"X"` for the monosomy it generates. -/
inductive ChromVal where
  | int : Int → ChromVal
  | str : String → ChromVal
deriving DecidableEq, Repr

/-- One abnormality dictionary, as built by `mock_analysis`
(src/app.py lines 131-135, 139-143, 152-155).  The `chromosome` key is
absent for translocations, hence the `Option`. -/
structure Abnormality where
  type : String
  chromosome : Option ChromVal
  description : String
deriving DecidableEq, Repr

/-- The analysis-result dictionary returned by `mock_analysis`
(src/app.py lines 158-166).  The field `iscn` models the dictionary key
`"notation"` (that key name is kept in all string-level renderings).
`confidence` is modelled as a rational number. -/
structure KResult where
  iscn : String
  chromosome_count : Int
  sex_chromosomes : String
  abnormalities : List Abnormality
  confidence : ℚ
  analysis_time : String
  technical_notes : String
deriving DecidableEq, Repr

/-- The random draws consumed by `mock_analysis`, made explicit:
`countChoice` is `random.choice([46, 47, 45])`, `sexChoice` is
`random.choice(["XX", "XY"])`, `confidence` is `random.uniform(80, 95)`,
`trisomyChoice` is `random.choice([21, 18, 13])`, `structuralHit` is the
outcome of the test `random.random() < 0.1`, and `now` is
`datetime.now().isoformat()`. -/
structure MockRand where
  countChoice : Int
  sexChoice : String
  confidence : ℚ
  trisomyChoice : Int
  structuralHit : Bool
  now : String

/-- The draws a real run of `mock_analysis` can produce. -/
def MockRand.Valid (g : MockRand) : Prop :=
  g.countChoice ∈ ([46, 47, 45] : List Int) ∧
  g.sexChoice ∈ (["XX", "XY"] : List String) ∧
  80 ≤ g.confidence ∧ g.confidence ≤ 95 ∧
  g.trisomyChoice ∈ ([21, 18, 13] : List Int)

instance (g : MockRand) : Decidable g.Valid := by
  unfold MockRand.Valid; infer_instance

/-- `KaryotypeAnalyzer.mock_analysis` (src/app.py lines 119-166) as a
pure function of the random draws.  The branch structure is transcribed
one-to-one: count 47 records a trisomy event and the suffix `,+N`;
count 45 with sex `XX` records the monosomy-X event with the string
`45,X`; count 45 otherwise yields `45,<sex>,-Y` with NO event recorded;
otherwise `46,<sex>`; finally a translocation event and the literal
suffix `,t(9;22)(q34;q11)` are added when the 10% draw hits and the
count is 46. -/
def mock_analysis (g : MockRand) : KResult :=
  let chromosome_count := g.countChoice
  let sex_chromosomes := g.sexChoice
  let base : List Abnormality × String :=
    if chromosome_count = 47 then
      ([⟨"trisomy", some (ChromVal.int g.trisomyChoice),
          "Trisomy " ++ toString g.trisomyChoice ++ " detected"⟩],
        "47," ++ sex_chromosomes ++ ",+" ++ toString g.trisomyChoice)
    else if chromosome_count = 45 then
      if sex_chromosomes = "XX" then
        ([⟨"monosomy", some (ChromVal.str "X"), "Turner syndrome (Monosomy X)"⟩],
          "45,X")
      else
        ([], "45," ++ sex_chromosomes ++ ",-Y")
    else
      ([], "46," ++ sex_chromosomes)
  let withStruct : List Abnormality × String :=
    if g.structuralHit = true ∧ chromosome_count = 46 then
      (base.1 ++ [⟨"translocation", none, "Balanced translocation t(9;22)(q34;q11)"⟩],
        base.2 ++ ",t(9;22)(q34;q11)")
    else
      base
  { iscn := withStruct.2
    chromosome_count := chromosome_count
    sex_chromosomes := sex_chromosomes
    abnormalities := withStruct.1
    confidence := g.confidence
    analysis_time := g.now
    technical_notes := "Analysis performed using EXAONE-Path-2.0 model" }

/-- The numerical-abnormality sentence of
`KaryotypeAnalyzer.generate_interpretation` (src/app.py line 176). -/
def numSentence (c : Int) : String :=
  "Numerical abnormality detected: " ++ toString c ++ " chromosomes."

/-- The sentence (if any) that the event loop of
`generate_interpretation` (src/app.py lines 178-190) appends for one
abnormality dictionary.  A trisomy on a chromosome other than 21, 18 or
13 falls through every branch and contributes nothing; every monosomy
contributes the fixed Turner sentence; a translocation contributes its
description after the fixed head.  (A trisomy whose dictionary lacks
the `chromosome` key would raise `KeyError` in Python; no such event is
ever constructed, and no theorem below touches that case.) -/
def eventSentence (a : Abnormality) : Option String :=
  if a.type = "trisomy" then
    if a.chromosome = some (ChromVal.int 21) then
      some "Trisomy 21 (Down syndrome) detected."
    else if a.chromosome = some (ChromVal.int 18) then
      some "Trisomy 18 (Edwards syndrome) detected."
    else if a.chromosome = some (ChromVal.int 13) then
      some "Trisomy 13 (Patau syndrome) detected."
    else
      none
  else if a.type = "monosomy" then
    some "Monosomy X (Turner syndrome) detected."
  else if a.type = "translocation" then
    some ("Structural rearrangement detected: " ++ a.description)
  else
    none

/-- The list `interpretation` built by `generate_interpretation`
(src/app.py lines 170-190) before joining. -/
def interpretationList (r : KResult) : List String :=
  if r.chromosome_count = 46 ∧ r.abnormalities = [] then
    ["Normal male/female karyotype with no apparent numerical or structural abnormalities."]
  else
    (if r.chromosome_count ≠ 46 then [numSentence r.chromosome_count] else []) ++
      r.abnormalities.filterMap eventSentence

/-- `KaryotypeAnalyzer.generate_interpretation` (src/app.py lines
168-192): the sentence list joined with a single space. -/
def generate_interpretation (r : KResult) : String :=
  String.intercalate " " (interpretationList r)

/-- Rendering of a `chromosome` value inside a notation token. -/
def chromStr : ChromVal → String
  | ChromVal.int n => toString n
  | ChromVal.str s => s

/-- Modelled from the spec (section 4.1): one step of the ISCN-style
derivation algorithm applied to one abnormality event.  A trisomy
appends `,+<chromosome>`; a monosomy of `X` in the degenerate single-X
karyotype (count 45) renders the whole prefix as `45,X`, a monosomy of
`Y` appends `,-Y`, any other monosomy appends `,-<chromosome>`; a
translocation appends a comma followed by the event description
verbatim.  (The `"?"` default is unreachable for the well-formed events
the spec allows, which carry a chromosome for trisomy/monosomy.) -/
def specIscnStep (count : Int) (acc : String) (a : Abnormality) : String :=
  if a.type = "trisomy" then
    acc ++ ",+" ++ chromStr (a.chromosome.getD (ChromVal.str "?"))
  else if a.type = "monosomy" then
    if a.chromosome = some (ChromVal.str "X") ∧ count = 45 then "45,X"
    else if a.chromosome = some (ChromVal.str "Y") then acc ++ ",-Y"
    else acc ++ ",-" ++ chromStr (a.chromosome.getD (ChromVal.str "?"))
  else if a.type = "translocation" then
    acc ++ "," ++ a.description
  else
    acc

/-- Modelled from the spec (section 4.1): the full ISCN-style notation
derivation, starting from `<count>,<sex_chromosomes>` and folding the
events in list order. -/
def specIscn (count : Int) (sex : String) (abns : List Abnormality) : String :=
  abns.foldl (specIscnStep count) (toString count ++ "," ++ sex)

/-- C1 counterexample: the 45,XY outcome of `mock_analysis` carries an
EMPTY abnormality list, yet its notation string is `45,XY,-Y` — no
monosomy(Y) event exists from which the `,-Y` suffix could be derived,
and the ISCN-style algorithm applied to the result's own fields
(count 45, sex XY, no events) yields `45,XY` instead.  So the notation
is not derived from chromosome_count, sex_chromosomes and the
abnormality list by the stated algorithm. -/
theorem c1_counterexample :
    MockRand.Valid ⟨45, "XY", 90, 21, false, "T"⟩ ∧
    (mock_analysis ⟨45, "XY", 90, 21, false, "T"⟩).abnormalities = [] ∧
    (mock_analysis ⟨45, "XY", 90, 21, false, "T"⟩).iscn = "45,XY,-Y" ∧
    specIscn 45 "XY" (mock_analysis ⟨45, "XY", 90, 21, false, "T"⟩).abnormalities =
      "45,XY" ∧
    (mock_analysis ⟨45, "XY", 90, 21, false, "T"⟩).iscn ≠
      specIscn (mock_analysis ⟨45, "XY", 90, 21, false, "T"⟩).chromosome_count
        (mock_analysis ⟨45, "XY", 90, 21, false, "T"⟩).sex_chromosomes
        (mock_analysis ⟨45, "XY", 90, 21, false, "T"⟩).abnormalities := by
  refine ⟨by decide, rfl, rfl, rfl, by decide⟩

/-- C1 (amended): for every possible draw, the notation of the
`mock_analysis` result agrees with the ISCN-style algorithm applied to
its chromosome_count, sex_chromosomes and abnormality list — so in
particular count 47 with a trisomy on N gives `47,<sex>,+N` (e.g.
`47,XX,+21`) and the monosomy-X outcome gives exactly `45,X` — except
in two outcomes: the 45,XY outcome, where the code appends `,-Y`
directly from the count and sex draws while recording NO monosomy
event (the abnormality list is empty and the notation is `45,XY,-Y`),
and the translocation outcome, where the appended token is the literal
breakpoint text rather than the event's description (settled by C6). -/
theorem c1_amended (g : MockRand) (h : MockRand.Valid g) :
    (¬(g.countChoice = 45 ∧ g.sexChoice = "XY") →
      ¬(g.structuralHit = true ∧ g.countChoice = 46) →
      (mock_analysis g).iscn =
        specIscn (mock_analysis g).chromosome_count
          (mock_analysis g).sex_chromosomes (mock_analysis g).abnormalities) ∧
    (g.countChoice = 45 → g.sexChoice = "XY" →
      (mock_analysis g).iscn = "45,XY,-Y" ∧ (mock_analysis g).abnormalities = []) := by
  obtain ⟨hc, hs, -, -, ht⟩ := h
  rcases g with ⟨c, s, q, t, b, n⟩
  simp only [List.mem_cons, List.not_mem_nil, or_false] at hc hs ht
  rcases hc with rfl | rfl | rfl <;> rcases hs with rfl | rfl <;>
    rcases ht with rfl | rfl | rfl <;> cases b <;>
    refine ⟨fun h1 h2 => ?_, fun h1 h2 => ?_⟩ <;> simp_all <;>
    first
    | rfl
    | exact ⟨rfl, rfl⟩

/-- C1 witness: the trisomy-21 draw with sex XX satisfies the amended
statement's hypotheses and its notation matches the algorithm (it
evaluates to `47,XX,+21`). -/
theorem c1_witness :
    (mock_analysis ⟨47, "XX", 90, 21, false, "T"⟩).iscn =
      specIscn (mock_analysis ⟨47, "XX", 90, 21, false, "T"⟩).chromosome_count
        (mock_analysis ⟨47, "XX", 90, 21, false, "T"⟩).sex_chromosomes
        (mock_analysis ⟨47, "XX", 90, 21, false, "T"⟩).abnormalities :=
  (c1_amended ⟨47, "XX", 90, 21, false, "T"⟩ (by decide)).1 (by decide) (by decide)

/-- Any sentence the event loop produces for an event of the result is
in the final sentence list: an event in the list makes the list
nonempty, so the normal-karyotype branch is not taken. -/
lemma eventSentence_mem_interpretationList {r : KResult} {a : Abnormality}
    {s : String} (ha : a ∈ r.abnormalities) (hs : eventSentence a = some s) :
    s ∈ interpretationList r := by
  have hne : r.abnormalities ≠ [] := by
    intro h
    rw [h] at ha
    exact List.not_mem_nil a ha
  unfold interpretationList
  rw [if_neg (by intro h; exact hne h.2)]
  exact List.mem_append_right _ (List.mem_filterMap.2 ⟨a, ha, hs⟩)

/-- C3 counterexample: a result carrying a trisomy-9 event.  The
interpretation consists of the numerical sentence alone: the event loop
has no generic branch, so the trisomy-9 event contributes no sentence
at all, and in particular the generic sentence `Trisomy 9 detected.`
required by the claim is absent. -/
theorem c3_counterexample :
    interpretationList
        ⟨"47,XX,+9", 47, "XX",
          [⟨"trisomy", some (ChromVal.int 9), "Trisomy 9 detected"⟩], 90, "T", "N"⟩ =
      ["Numerical abnormality detected: 47 chromosomes."] ∧
    "Trisomy 9 detected." ∉
      interpretationList
        ⟨"47,XX,+9", 47, "XX",
          [⟨"trisomy", some (ChromVal.int 9), "Trisomy 9 detected"⟩], 90, "T", "N"⟩ ∧
    generate_interpretation
        ⟨"47,XX,+9", 47, "XX",
          [⟨"trisomy", some (ChromVal.int 9), "Trisomy 9 detected"⟩], 90, "T", "N"⟩ =
      "Numerical abnormality detected: 47 chromosomes." := by
  decide

/-- C3 (amended): a trisomy event on chromosome 21, 18 or 13 puts its
named-syndrome sentence into the interpretation; a trisomy event on any
other chromosome produces NO sentence (it is silently skipped — there
is no generic `Trisomy N detected.` branch). -/
theorem c3_amended (r : KResult) (a : Abnormality) (ha : a ∈ r.abnormalities)
    (ht : a.type = "trisomy") :
    (a.chromosome = some (ChromVal.int 21) →
      "Trisomy 21 (Down syndrome) detected." ∈ interpretationList r) ∧
    (a.chromosome = some (ChromVal.int 18) →
      "Trisomy 18 (Edwards syndrome) detected." ∈ interpretationList r) ∧
    (a.chromosome = some (ChromVal.int 13) →
      "Trisomy 13 (Patau syndrome) detected." ∈ interpretationList r) ∧
    (a.chromosome ≠ some (ChromVal.int 21) →
      a.chromosome ≠ some (ChromVal.int 18) →
      a.chromosome ≠ some (ChromVal.int 13) →
      eventSentence a = none) := by
  refine ⟨fun h21 => ?_, fun h18 => ?_, fun h13 => ?_, fun n21 n18 n13 => ?_⟩
  · exact eventSentence_mem_interpretationList ha
      (by unfold eventSentence; rw [if_pos ht, if_pos h21])
  · exact eventSentence_mem_interpretationList ha
      (by unfold eventSentence
          rw [if_pos ht, if_neg (by rw [h18]; decide), if_pos h18])
  · exact eventSentence_mem_interpretationList ha
      (by unfold eventSentence
          rw [if_pos ht, if_neg (by rw [h13]; decide), if_neg (by rw [h13]; decide),
            if_pos h13])
  · unfold eventSentence
    rw [if_pos ht, if_neg n21, if_neg n18, if_neg n13]

/-- C3 witness: at a result holding a trisomy-21 event, the Down
syndrome sentence is among the interpretation sentences. -/
theorem c3_witness :
    "Trisomy 21 (Down syndrome) detected." ∈
      interpretationList
        ⟨"47,XX,+21", 47, "XX",
          [⟨"trisomy", some (ChromVal.int 21), "Trisomy 21 detected"⟩], 90, "T", "N"⟩ :=
  (c3_amended _ _ (List.mem_singleton.2 rfl) rfl).1 rfl

/-- C4 counterexample: a result carrying a monosomy event on
chromosome 21.  The event loop appends the fixed Turner sentence
`Monosomy X (Turner syndrome) detected.` without inspecting the
event's chromosome, and the generic sentence `Monosomy 21 detected.`
required by the claim is absent. -/
theorem c4_counterexample :
    interpretationList
        ⟨"45,XX,-21", 45, "XX",
          [⟨"monosomy", some (ChromVal.int 21), "Monosomy 21"⟩], 90, "T", "N"⟩ =
      ["Numerical abnormality detected: 45 chromosomes.",
        "Monosomy X (Turner syndrome) detected."] ∧
    "Monosomy 21 detected." ∉
      interpretationList
        ⟨"45,XX,-21", 45, "XX",
          [⟨"monosomy", some (ChromVal.int 21), "Monosomy 21"⟩], 90, "T", "N"⟩ := by
  decide

/-- C4 (amended): EVERY monosomy event, whatever its chromosome,
contributes the one fixed sentence
`Monosomy X (Turner syndrome) detected.` to the interpretation — the
Turner sentence claimed for monosomy X, but also emitted verbatim for
any other monosomy in place of a generic per-chromosome sentence. -/
theorem c4_amended (r : KResult) (a : Abnormality) (ha : a ∈ r.abnormalities)
    (hm : a.type = "monosomy") :
    eventSentence a = some "Monosomy X (Turner syndrome) detected." ∧
    "Monosomy X (Turner syndrome) detected." ∈ interpretationList r := by
  have hsent : eventSentence a = some "Monosomy X (Turner syndrome) detected." := by
    unfold eventSentence
    rw [if_neg (by rw [hm]; decide), if_pos hm]
  exact ⟨hsent, eventSentence_mem_interpretationList ha hsent⟩

/-- C4 witness: at a result holding the monosomy-X event built by the
code, the Turner sentence is among the interpretation sentences. -/
theorem c4_witness :
    eventSentence ⟨"monosomy", some (ChromVal.str "X"), "Turner syndrome (Monosomy X)"⟩ =
      some "Monosomy X (Turner syndrome) detected." ∧
    "Monosomy X (Turner syndrome) detected." ∈
      interpretationList
        ⟨"45,X", 45, "XX",
          [⟨"monosomy", some (ChromVal.str "X"), "Turner syndrome (Monosomy X)"⟩],
          90, "T", "N"⟩ :=
  c4_amended _ _ (List.mem_singleton.2 rfl) rfl

/-- C5: a result with chromosome count 46 and no abnormality events is
interpreted by exactly the fixed normal-karyotype sentence and nothing
else (the sentence list is that one sentence, and the joined string is
exactly it). -/
theorem c5_theorem (r : KResult) (h46 : r.chromosome_count = 46)
    (hab : r.abnormalities = []) :
    interpretationList r =
      ["Normal male/female karyotype with no apparent numerical or structural abnormalities."] ∧
    generate_interpretation r =
      "Normal male/female karyotype with no apparent numerical or structural abnormalities." := by
  have hlist : interpretationList r =
      ["Normal male/female karyotype with no apparent numerical or structural abnormalities."] := by
    unfold interpretationList
    rw [if_pos ⟨h46, hab⟩]
  exact ⟨hlist, by unfold generate_interpretation; rw [hlist]; rfl⟩

/-- C5 witness: the normal 46,XX result evaluates to exactly the fixed
sentence. -/
theorem c5_witness :
    interpretationList ⟨"46,XX", 46, "XX", [], 90, "T", "N"⟩ =
      ["Normal male/female karyotype with no apparent numerical or structural abnormalities."] ∧
    generate_interpretation ⟨"46,XX", 46, "XX", [], 90, "T", "N"⟩ =
      "Normal male/female karyotype with no apparent numerical or structural abnormalities." :=
  c5_theorem _ rfl rfl

/-- C6 counterexample: the translocation outcome of `mock_analysis`.
The recorded event's description is
`Balanced translocation t(9;22)(q34;q11)`, yet the notation ends in the
literal `,t(9;22)(q34;q11)`: appending a comma followed by the
description verbatim would instead give
`46,XX,Balanced translocation t(9;22)(q34;q11)`. -/
theorem c6_counterexample :
    (mock_analysis ⟨46, "XX", 90, 21, true, "T"⟩).abnormalities.map
        Abnormality.description =
      ["Balanced translocation t(9;22)(q34;q11)"] ∧
    (mock_analysis ⟨46, "XX", 90, 21, true, "T"⟩).iscn = "46,XX,t(9;22)(q34;q11)" ∧
    (mock_analysis ⟨46, "XX", 90, 21, true, "T"⟩).iscn ≠
      "46,XX," ++ "Balanced translocation t(9;22)(q34;q11)" := by
  decide

/-- C6 (amended): whenever the structural draw hits on a count-46
outcome, the notation is the normal prefix extended by the FIXED
literal `,t(9;22)(q34;q11)` — the parenthesized breakpoint part only,
not the recorded event's description verbatim (that description is
`Balanced translocation t(9;22)(q34;q11)`); with sex XX the notation is
exactly `46,XX,t(9;22)(q34;q11)`. -/
theorem c6_amended (g : MockRand) (h : MockRand.Valid g)
    (h46 : g.countChoice = 46) (hb : g.structuralHit = true) :
    (mock_analysis g).iscn = "46," ++ g.sexChoice ++ ",t(9;22)(q34;q11)" ∧
    (mock_analysis g).abnormalities =
      [⟨"translocation", none, "Balanced translocation t(9;22)(q34;q11)"⟩] := by
  rcases g with ⟨c, s, q, t, b, n⟩
  dsimp only at h46 hb
  subst h46 hb
  exact ⟨rfl, rfl⟩

/-- C6 witness: the concrete 46,XX translocation outcome evaluates to
the claimed notation string. -/
theorem c6_witness :
    (mock_analysis ⟨46, "XX", 90, 21, true, "T"⟩).iscn =
      "46," ++ "XX" ++ ",t(9;22)(q34;q11)" ∧
    (mock_analysis ⟨46, "XX", 90, 21, true, "T"⟩).abnormalities =
      [⟨"translocation", none, "Balanced translocation t(9;22)(q34;q11)"⟩] :=
  c6_amended ⟨46, "XX", 90, 21, true, "T"⟩ (by decide) rfl rfl

/-- C7 counterexample: a non-normal result with one trisomy-22 event.
The claim requires exactly one sentence per abnormality event after the
numerical sentence (2 sentences in total here), but the event loop
skips a trisomy whose chromosome is not 21/18/13, so the sentence list
is the numerical sentence alone. -/
theorem c7_counterexample :
    interpretationList
        ⟨"47,XX,+22", 47, "XX",
          [⟨"trisomy", some (ChromVal.int 22), "Trisomy 22 detected"⟩], 90, "T", "N"⟩ =
      ["Numerical abnormality detected: 47 chromosomes."] ∧
    (interpretationList
        ⟨"47,XX,+22", 47, "XX",
          [⟨"trisomy", some (ChromVal.int 22), "Trisomy 22 detected"⟩], 90, "T", "N"⟩).length ≠
      1 +
        (KResult.abnormalities
          ⟨"47,XX,+22", 47, "XX",
            [⟨"trisomy", some (ChromVal.int 22), "Trisomy 22 detected"⟩], 90, "T", "N"⟩).length := by
  decide

/-- If every event of a list yields a sentence, the filterMap over the
event loop keeps exactly one sentence per event, in order. -/
lemma filterMap_eventSentence_eq_map (l : List Abnormality)
    (h : ∀ a ∈ l, (eventSentence a).isSome = true) :
    l.filterMap eventSentence = l.map fun a => (eventSentence a).getD "" := by
  induction l with
  | nil => rfl
  | cons a l ih =>
    have ha : (eventSentence a).isSome = true := h a (List.mem_cons_self a l)
    obtain ⟨s, hs⟩ := Option.isSome_iff_exists.1 ha
    rw [List.filterMap_cons, List.map_cons, hs]
    exact congrArg _ (ih fun b hb => h b (List.mem_cons_of_mem a hb))

/-- C7 (amended): for every result outside the normal case whose
events each produce a sentence (trisomy on 21/18/13, monosomy, or
translocation — events the loop recognizes), the sentence list is the
numerical-abnormality sentence exactly when the count differs from 46,
followed by exactly one sentence per event in list order, and the
interpretation is that list joined by single spaces; an event the loop
does not recognize (e.g. a trisomy on another chromosome) contributes
no sentence and breaks the one-sentence-per-event reading. -/
theorem c7_amended (r : KResult)
    (hn : ¬(r.chromosome_count = 46 ∧ r.abnormalities = []))
    (hall : ∀ a ∈ r.abnormalities, (eventSentence a).isSome = true) :
    interpretationList r =
      (if r.chromosome_count ≠ 46 then [numSentence r.chromosome_count] else []) ++
        (r.abnormalities.map fun a => (eventSentence a).getD "") ∧
    generate_interpretation r = String.intercalate " " (interpretationList r) := by
  constructor
  · unfold interpretationList
    rw [if_neg hn, filterMap_eventSentence_eq_map _ hall]
  · rfl

/-- C7 witness: a 45-count result with the monosomy-X event satisfies
the hypotheses, and its sentence list is the numerical sentence
followed by the event's sentence, joined by one space. -/
theorem c7_witness :
    interpretationList
        ⟨"45,X", 45, "XX",
          [⟨"monosomy", some (ChromVal.str "X"), "Turner syndrome (Monosomy X)"⟩],
          90, "T", "N"⟩ =
      (if (KResult.chromosome_count
            ⟨"45,X", 45, "XX",
              [⟨"monosomy", some (ChromVal.str "X"), "Turner syndrome (Monosomy X)"⟩],
              90, "T", "N"⟩) ≠ 46 then
        [numSentence
          (KResult.chromosome_count
            ⟨"45,X", 45, "XX",
              [⟨"monosomy", some (ChromVal.str "X"), "Turner syndrome (Monosomy X)"⟩],
              90, "T", "N"⟩)]
      else []) ++
        ((KResult.abnormalities
            ⟨"45,X", 45, "XX",
              [⟨"monosomy", some (ChromVal.str "X"), "Turner syndrome (Monosomy X)"⟩],
              90, "T", "N"⟩).map fun a => (eventSentence a).getD "") ∧
    generate_interpretation
        ⟨"45,X", 45, "XX",
          [⟨"monosomy", some (ChromVal.str "X"), "Turner syndrome (Monosomy X)"⟩],
          90, "T", "N"⟩ =
      String.intercalate " "
        (interpretationList
          ⟨"45,X", 45, "XX",
            [⟨"monosomy", some (ChromVal.str "X"), "Turner syndrome (Monosomy X)"⟩],
            90, "T", "N"⟩) :=
  c7_amended _ (by decide) (by decide)

/-- C10: over every possible draw, the `mock_analysis` result satisfies
the construction invariant: at most two events (in fact at most one),
no repeated (kind, chromosome) pair, a trisomy event present exactly
when the count is 47, monosomy events only at count 45, and
translocation events only at count 46. -/
theorem c10_theorem (g : MockRand) (h : MockRand.Valid g) :
    (mock_analysis g).abnormalities.length ≤ 2 ∧
    ((mock_analysis g).abnormalities.map fun a => (a.type, a.chromosome)).Nodup ∧
    ((∃ a ∈ (mock_analysis g).abnormalities, a.type = "trisomy") ↔
      (mock_analysis g).chromosome_count = 47) ∧
    (∀ a ∈ (mock_analysis g).abnormalities, a.type = "monosomy" →
      (mock_analysis g).chromosome_count = 45) ∧
    (∀ a ∈ (mock_analysis g).abnormalities, a.type = "translocation" →
      (mock_analysis g).chromosome_count = 46) := by
  obtain ⟨hc, hs, -, -, ht⟩ := h
  rcases g with ⟨c, s, q, t, b, n⟩
  simp only [List.mem_cons, List.not_mem_nil, or_false] at hc hs ht
  rcases hc with rfl | rfl | rfl <;> rcases hs with rfl | rfl <;>
    rcases ht with rfl | rfl | rfl <;> cases b <;>
    (dsimp only [mock_analysis]; decide)

/-- C10 witness: the invariant at the trisomy-21 draw with sex XX. -/
theorem c10_witness :
    (mock_analysis ⟨47, "XX", 90, 21, false, "T"⟩).abnormalities.length ≤ 2 ∧
    ((mock_analysis ⟨47, "XX", 90, 21, false, "T"⟩).abnormalities.map fun a =>
      (a.type, a.chromosome)).Nodup ∧
    ((∃ a ∈ (mock_analysis ⟨47, "XX", 90, 21, false, "T"⟩).abnormalities,
        a.type = "trisomy") ↔
      (mock_analysis ⟨47, "XX", 90, 21, false, "T"⟩).chromosome_count = 47) ∧
    (∀ a ∈ (mock_analysis ⟨47, "XX", 90, 21, false, "T"⟩).abnormalities,
      a.type = "monosomy" →
      (mock_analysis ⟨47, "XX", 90, 21, false, "T"⟩).chromosome_count = 45) ∧
    (∀ a ∈ (mock_analysis ⟨47, "XX", 90, 21, false, "T"⟩).abnormalities,
      a.type = "translocation" →
      (mock_analysis ⟨47, "XX", 90, 21, false, "T"⟩).chromosome_count = 46) :=
  c10_theorem ⟨47, "XX", 90, 21, false, "T"⟩ (by decide)

/-- A value stored in the result dictionary, as `generate_report` and
the JSON download see it. -/
inductive PyVal where
  | str : String → PyVal
  | int : Int → PyVal
  | num : ℚ → PyVal
  | listAbn : List Abnormality → PyVal
deriving DecidableEq, Repr

/-- The result dictionary as an insertion-ordered key-value list. -/
abbrev PyDict := List (String × PyVal)

/-- Python dictionary subscription: the value under a key, or a
`KeyError` naming the key. -/
def dictGet (d : PyDict) (k : String) : Except String PyVal :=
  match d with
  | [] => Except.error k
  | (key, v) :: rest => if key = k then Except.ok v else dictGet rest k

/-- How an f-string interpolates a value (`str(...)`). -/
def fmtVal : PyVal → String
  | PyVal.str s => s
  | PyVal.int n => toString n
  | PyVal.num q => toString q
  | PyVal.listAbn _ => "[...]"

/-- One decimal digit of a rational, as Python `:.1f` format would
show it (rounding to the nearest tenth); fails on a value that is not
a number, as Python `format` would. -/
def fmt1f : PyVal → Except String String
  | PyVal.num q =>
      let m : Int := round (q * 10)
      let sign := if m < 0 then "-" else ""
      Except.ok (sign ++ toString (m.natAbs / 10) ++ "." ++ toString (m.natAbs % 10))
  | PyVal.int n => Except.ok (toString n ++ ".0")
  | _ => Except.error "confidence"

/-- The numbered abnormality lines of the report (src/app.py lines
366-370): one `"<i+1>. <description>\n"` line per event, or the fixed
no-abnormality line when the list is empty. -/
def abnormalityLines (l : List Abnormality) : String :=
  if l ≠ [] then
    String.join (l.enum.map fun p => toString (p.1 + 1) ++ ". " ++ p.2.description ++ "\n")
  else
    "No chromosomal abnormalities detected.\n"

/-- `generate_report` (src/app.py lines 346-392) over the raw result
dictionary: every `result[...]` subscription is a `dictGet` that fails
with the missing key, and the `:.1f` interpolation of the confidence
fails on a non-numeric value, exactly where the Python code would
raise; otherwise the fixed-section text document is assembled. -/
def generate_report (result : PyDict) : Except String String := do
  let atime ← dictGet result "analysis_time"
  let nota ← dictGet result "notation"
  let count ← dictGet result "chromosome_count"
  let sex ← dictGet result "sex_chromosomes"
  let confV ← dictGet result "confidence"
  let conf ← fmt1f confV
  let head :=
    "\nCHROMOSOME KARYOTYPE ANALYSIS REPORT\n====================================\n\nAnalysis Date: "
      ++ fmtVal atime ++ "\n\nISCN 2020 Notation: " ++ fmtVal nota
      ++ "\n\nSUMMARY\n-------\nChromosome Count: " ++ fmtVal count
      ++ "\nSex Chromosomes: " ++ fmtVal sex
      ++ "\nConfidence Score: " ++ conf
      ++ "%\n\nDETECTED ABNORMALITIES\n---------------------\n"
  let abnV ← dictGet result "abnormalities"
  let abns ← match abnV with
    | PyVal.listAbn l => Except.ok l
    | _ => Except.error "abnormalities"
  let interp ← dictGet result "interpretation"
  let notes ← dictGet result "technical_notes"
  Except.ok (head ++ abnormalityLines abns
    ++ "\n\nCLINICAL INTERPRETATION\n----------------------\n" ++ fmtVal interp
    ++ "\n\nTECHNICAL NOTES\n--------------\n" ++ fmtVal notes
    ++ "\n\nDISCLAIMER\n----------\nThis analysis is for educational and research purposes only. \nResults must be validated by qualified cytogenetics professionals.\nDo not use for clinical diagnosis or medical decision-making.\n\nGenerated by Chromosome Karyotype Analyzer\nPowered by EXAONE-Path-2.0 AI Model\n")

/-- The dictionary held by the app when `generate_report` runs: the
`mock_analysis` keys in insertion order (src/app.py lines 158-166) and
the `interpretation` key attached afterwards (line 284). -/
def toPyDict (r : KResult) (interp : String) : PyDict :=
  [("notation", PyVal.str r.iscn),
    ("chromosome_count", PyVal.int r.chromosome_count),
    ("sex_chromosomes", PyVal.str r.sex_chromosomes),
    ("abnormalities", PyVal.listAbn r.abnormalities),
    ("confidence", PyVal.num r.confidence),
    ("analysis_time", PyVal.str r.analysis_time),
    ("technical_notes", PyVal.str r.technical_notes),
    ("interpretation", PyVal.str interp)]

/-- Success test for an `Except` value. -/
def isOkB : Except String String → Bool
  | Except.ok _ => true
  | Except.error _ => false

/-- C9: report rendering is total on the validated domain — for every
result with all fields present (which `KResult` plus the attached
interpretation guarantees) and a numeric confidence in [0, 100], every
dictionary subscription and the confidence formatting succeed, so
`generate_report` returns a document and never fails. -/
theorem c9_theorem (r : KResult) (interp : String)
    (_h0 : 0 ≤ r.confidence) (_h100 : r.confidence ≤ 100) :
    isOkB (generate_report (toPyDict r interp)) = true := by
  rfl

/-- C9 witness: the renderer succeeds on a concrete valid result. -/
theorem c9_witness :
    isOkB (generate_report (toPyDict ⟨"46,XX", 46, "XX", [], 90, "T", "N"⟩ "I")) = true :=
  c9_theorem ⟨"46,XX", 46, "XX", [], 90, "T", "N"⟩ "I" (by decide) (by decide)

/-- The typed validation-failure value of the spec (section 7),
carrying the offending field name. -/
structure ValidationError where
  field : String
deriving DecidableEq, Repr

/-- The raw findings consumed by `classify` (spec section 4.1). -/
structure Findings where
  chromosome_count : Int
  sex_chromosomes : String
  abnormalities : List Abnormality
  confidence : ℚ
deriving DecidableEq, Repr

/-- A valid human chromosome identifier: an integer 1-22, or the
literal `X`/`Y` (spec section 3). -/
def validChrom : ChromVal → Bool
  | ChromVal.int n => decide (1 ≤ n ∧ n ≤ 22)
  | ChromVal.str s => s = "X" ∨ s = "Y"

/-- A well-formed abnormality event (spec section 3): a recognized
kind, a valid chromosome present for trisomy/monosomy and absent for
translocation. -/
def abnOk (a : Abnormality) : Bool :=
  if a.type = "trisomy" ∨ a.type = "monosomy" then
    match a.chromosome with
    | some c => validChrom c
    | none => false
  else if a.type = "translocation" then
    a.chromosome = none
  else
    false

/-- Modelled from the spec: `src/app.py` contains no `classify`
operation and no validation of findings at all (the identifier
`ValidationError` appears nowhere in it; `analyze_with_api` replaces
any upstream response by `mock_analysis()`).  This definition follows
the contract of spec sections 4.1 and 6: each field is checked in turn
— positive and not grossly out-of-range chromosome count (taken as at
most 92, twice the diploid number), a recognized sex-chromosome code
(`XX`, `XY`, or the degenerate `X`), well-formed abnormality events,
confidence inside [0, 100] — and the first failure aborts the call
with a `ValidationError` naming the offending field, returning no
partial result; on success the canonical result is assembled with the
notation derived by the ISCN-style algorithm. -/
def classify (f : Findings) : Except ValidationError KResult :=
  if f.chromosome_count ≤ 0 ∨ 92 < f.chromosome_count then
    Except.error ⟨"chromosome_count"⟩
  else if f.sex_chromosomes ∉ (["XX", "XY", "X"] : List String) then
    Except.error ⟨"sex_chromosomes"⟩
  else if ¬ f.abnormalities.all abnOk then
    Except.error ⟨"abnormalities"⟩
  else if f.confidence < 0 ∨ 100 < f.confidence then
    Except.error ⟨"confidence"⟩
  else
    Except.ok
      { iscn := specIscn f.chromosome_count f.sex_chromosomes f.abnormalities
        chromosome_count := f.chromosome_count
        sex_chromosomes := f.sex_chromosomes
        abnormalities := f.abnormalities
        confidence := f.confidence
        analysis_time := ""
        technical_notes := "" }

/-- Well-formed findings (spec sections 3 and 4.1), stated
independently of `classify`. -/
def FindingsWellFormed (f : Findings) : Prop :=
  (0 < f.chromosome_count ∧ f.chromosome_count ≤ 92) ∧
  f.sex_chromosomes ∈ (["XX", "XY", "X"] : List String) ∧
  (∀ a ∈ f.abnormalities, abnOk a = true) ∧
  (0 ≤ f.confidence ∧ f.confidence ≤ 100)

/-- C2: `classify` succeeds exactly on well-formed findings — so every
malformed input fails with a `ValidationError` and no partial result —
and the three inputs singled out by the spec are rejected with the
offending field name: confidence 150 and confidence -1 yield the error
naming `confidence`, and the sex-chromosome code `ZZ` yields the error
naming `sex_chromosomes`. -/
theorem c2_theorem :
    (∀ f : Findings, (∃ r, classify f = Except.ok r) ↔ FindingsWellFormed f) ∧
    classify ⟨46, "XX", [], 150⟩ = Except.error ⟨"confidence"⟩ ∧
    classify ⟨46, "XX", [], -1⟩ = Except.error ⟨"confidence"⟩ ∧
    classify ⟨46, "ZZ", [], 90⟩ = Except.error ⟨"sex_chromosomes"⟩ := by
  refine ⟨fun f => ?_, rfl, rfl, rfl⟩
  unfold classify FindingsWellFormed
  split_ifs with h1 h2 h3 h4
  · exact iff_of_false (fun h => h.elim fun r hr => hr)
      (fun hw => by have p1 := hw.1.1; have p2 := hw.1.2; omega)
  · refine iff_of_false (fun h => h.elim fun r hr => hr) (fun hw => ?_)
    rcases h4 with h | h
    · exact absurd hw.2.2.2.1 (not_le.2 h)
    · exact absurd hw.2.2.2.2 (not_le.2 h)
  · refine iff_of_true ⟨_, rfl⟩ ?_
    push_neg at h1 h4
    exact ⟨⟨h1.1, h1.2⟩, h2, List.all_eq_true.1 h3, h4.1, h4.2⟩
  · exact iff_of_false (fun h => h.elim fun r hr => hr)
      (fun hw => h3 (List.all_eq_true.2 hw.2.2.1))
  · exact iff_of_false (fun h => h.elim fun r hr => hr) (fun hw => h2 hw.2.1)

/-- The structured (JSON-like) document tree produced by the
`json.dumps(result, indent=2)` download (src/app.py line 413). -/
inductive Json where
  | str : String → Json
  | int : Int → Json
  | num : ℚ → Json
  | arr : List Json → Json
  | obj : List (String × Json) → Json

/-- Lookup of a key in a JSON object body. -/
def jLookup (l : List (String × Json)) (k : String) : Option Json :=
  match l with
  | [] => none
  | (key, v) :: rest => if key = k then some v else jLookup rest k

/-- The JSON tree of one abnormality dictionary: the `chromosome` key
is present for trisomy/monosomy events and absent for translocations,
exactly as the dictionaries of `mock_analysis` have it. -/
def abnToJson (a : Abnormality) : Json :=
  Json.obj
    (("type", Json.str a.type) ::
      (match a.chromosome with
        | some (ChromVal.int n) => [("chromosome", Json.int n)]
        | some (ChromVal.str s) => [("chromosome", Json.str s)]
        | none => []) ++
      [("description", Json.str a.description)])

/-- The JSON tree of the whole result dictionary with its attached
interpretation: the keys of `mock_analysis` (src/app.py lines 158-166)
in insertion order, plus `interpretation` (line 284), as
`json.dumps(result, indent=2)` serializes them (line 413). -/
def resultToJson (r : KResult) (interp : String) : Json :=
  Json.obj
    [("notation", Json.str r.iscn),
      ("chromosome_count", Json.int r.chromosome_count),
      ("sex_chromosomes", Json.str r.sex_chromosomes),
      ("abnormalities", Json.arr (r.abnormalities.map abnToJson)),
      ("confidence", Json.num r.confidence),
      ("analysis_time", Json.str r.analysis_time),
      ("technical_notes", Json.str r.technical_notes),
      ("interpretation", Json.str interp)]

/-- String projection of a JSON node. -/
def asStr : Json → Option String
  | Json.str s => some s
  | _ => none

/-- Integer projection of a JSON node. -/
def asInt : Json → Option Int
  | Json.int n => some n
  | _ => none

/-- Numeric projection of a JSON node. -/
def asNum : Json → Option ℚ
  | Json.num q => some q
  | _ => none

/-- Chromosome-value projection of a JSON node. -/
def asChrom : Json → Option ChromVal
  | Json.int n => some (ChromVal.int n)
  | Json.str s => some (ChromVal.str s)
  | _ => none

/-- Modelled from the spec: `src/app.py` serializes the result with
`json.dumps` (line 413) but contains no parser for the structured
document; spec section 4.3 requires the structured export to be
machine re-ingestible and to round-trip field-for-field.  This parser
reads one abnormality object back. -/
def jsonToAbn (j : Json) : Option Abnormality :=
  match j with
  | Json.obj l => do
      let t ← (jLookup l "type").bind asStr
      let c ← match jLookup l "chromosome" with
        | none => some Option.none
        | some cj => (asChrom cj).map some
      let d ← (jLookup l "description").bind asStr
      some ⟨t, c, d⟩
  | _ => none

/-- Modelled from the spec: the parser for the whole structured
document (see `jsonToAbn`), returning the re-ingested result and its
interpretation string, or nothing on a malformed document. -/
def jsonToResult (j : Json) : Option (KResult × String) :=
  match j with
  | Json.obj l => do
      let nota ← (jLookup l "notation").bind asStr
      let count ← (jLookup l "chromosome_count").bind asInt
      let sex ← (jLookup l "sex_chromosomes").bind asStr
      let abnsJ ← match jLookup l "abnormalities" with
        | some (Json.arr a) => some a
        | _ => none
      let abns ← abnsJ.mapM jsonToAbn
      let conf ← (jLookup l "confidence").bind asNum
      let atime ← (jLookup l "analysis_time").bind asStr
      let notes ← (jLookup l "technical_notes").bind asStr
      let interp ← (jLookup l "interpretation").bind asStr
      some (⟨nota, count, sex, abns, conf, atime, notes⟩, interp)
  | _ => none

/-- Parsing back one serialized abnormality yields the original. -/
lemma jsonToAbn_abnToJson (a : Abnormality) : jsonToAbn (abnToJson a) = some a := by
  rcases a with ⟨t, c, d⟩
  rcases c with _ | cv
  · rfl
  · rcases cv with n | s <;> rfl

/-- Parsing back a serialized abnormality list yields the original
(stated over the accumulator loop that `List.mapM` unfolds to). -/
lemma mapM_loop_jsonToAbn (l acc : List Abnormality) :
    List.mapM.loop jsonToAbn (l.map abnToJson) acc = some (acc.reverse ++ l) := by
  induction l generalizing acc with
  | nil => simp [List.mapM.loop]
  | cons a l ih =>
    rw [List.map_cons, List.mapM.loop]
    simp only [jsonToAbn_abnToJson, Option.bind_eq_bind, Option.some_bind]
    rw [ih (a :: acc)]
    simp

/-- C8: the structured export round-trips — parsing the JSON document
produced for any result with its interpretation attached yields the
original result and interpretation, field for field. -/
theorem c8_theorem (r : KResult) (interp : String) :
    jsonToResult (resultToJson r interp) = some (r, interp) := by
  rcases r with ⟨nota, count, sex, abns, conf, atime, notes⟩
  unfold jsonToResult resultToJson
  simp [jLookup, asStr, asInt, asNum]
  rw [mapM_loop_jsonToAbn]
  simp
